import Mathlib

/-!
Shallow embedding of `scripts/test/parallel-runner.py`.

The script runs an external test runner (`behave`) over a list of feature
files.  `run_behave_file` executes one file as a child process and
normalizes every outcome (normal exit, timeout, exception) into a result
record; `run_tests_in_parallel` fans the files out over a thread pool,
collects results in completion order and derives pass/fail counts; `main`
filters nonexistent files, aborts on empty input, and exits with the
number of failed items.

Interaction with the operating system is modelled by an oracle: the
environment is a function from the command line that would be executed to
the outcome of the child process (a normal completion with an exit code
and captured streams, a timeout, or an exception raised while launching
or communicating with the process).  The nondeterministic completion
order of the thread pool is modelled by an explicit list of indices.
-/

namespace ParallelRunner

/-- Outcome of `subprocess.run` when the child terminates normally:
exit code and the two captured text streams. -/
structure ProcResult where
  returncode : Int
  stdout : String
  stderr : String
deriving DecidableEq, Repr

/-- The three ways the `subprocess.run` call inside `run_behave_file`
can end: normal termination, `subprocess.TimeoutExpired`, or any other
exception (modelled by the message `str(e)`). -/
inductive SubprocessOutcome where
  | completed (r : ProcResult)
  | timedOut
  | raised (msg : String)
deriving DecidableEq, Repr

/-- The dictionary returned by `run_behave_file`
(keys `file`, `success`, `output`, `error`, `returncode`, `duration`). -/
structure ExecutionResult where
  file : String
  success : Bool
  output : String
  error : String
  returncode : Int
  duration : Nat
deriving DecidableEq, Repr

/-- Python truthiness of the optional `tags` argument: `None` and the
empty string are falsy, every other string is truthy. -/
def strOptTruthy : Option String → Bool
  | none => false
  | some s => s != ""

/-- The command list built at the top of `run_behave_file`:
`cmd = [behave_command, feature_file]`, then `--tags <tags>` if `tags`
is truthy, then `--format <fmt>` if `output_format` is truthy and not
`"pretty"`, then `--dry-run` if `dry_run`. -/
def build_cmd (behave_command feature_file : String) (tags : Option String)
    (output_format : String) (dry_run : Bool) : List String :=
  let cmd := [behave_command, feature_file]
  let cmd := if strOptTruthy tags then cmd ++ ["--tags", tags.getD ""] else cmd
  let cmd := if output_format != "" && output_format != "pretty" then
      cmd ++ ["--format", output_format] else cmd
  if dry_run then cmd ++ ["--dry-run"] else cmd

/-- `run_behave_file`: build the command, run it through the environment
oracle, and translate each of the three possible outcomes into an
`ExecutionResult` exactly as the three branches of the source do. -/
def run_behave_file (feature_file behave_command : String) (tags : Option String)
    (output_format : String) (dry_run : Bool)
    (env : List String → SubprocessOutcome) : ExecutionResult :=
  let cmd := build_cmd behave_command feature_file tags output_format dry_run
  match env cmd with
  | SubprocessOutcome.completed r =>
      { file := feature_file, success := r.returncode == 0, output := r.stdout,
        error := r.stderr, returncode := r.returncode, duration := 0 }
  | SubprocessOutcome.timedOut =>
      { file := feature_file, success := false, output := "",
        error := "Test execution timed out after 5 minutes",
        returncode := 1, duration := 300 }
  | SubprocessOutcome.raised msg =>
      { file := feature_file, success := false, output := "",
        error := msg, returncode := 1, duration := 0 }

/-- The results of the futures submitted by `run_tests_in_parallel`, in
submission order: one call to `run_behave_file` per feature file, each
submission getting its own child process (hence a per-index oracle). -/
def submitted_results (files : List String) (behave_command : String)
    (tags : Option String) (output_format : String) (dry_run : Bool)
    (env : Nat → List String → SubprocessOutcome) : List ExecutionResult :=
  files.enum.map
    (fun p => run_behave_file p.2 behave_command tags output_format dry_run (env p.1))

/-- `run_tests_in_parallel`: the `as_completed` loop appends one result
per future, in a nondeterministic completion order modelled by the index
list `order` (the theorems assume `order` is a permutation of the
submitted indices, which is what `as_completed` over the
`future_to_file` dictionary guarantees). -/
def run_tests_in_parallel (files : List String) (behave_command : String)
    (tags : Option String) (output_format : String) (dry_run : Bool)
    (env : Nat → List String → SubprocessOutcome) (order : List Nat) :
    List ExecutionResult :=
  order.filterMap
    (fun i => (submitted_results files behave_command tags output_format dry_run env)[i]?)

/-- `passed = sum(1 for r in results if r['success'])`. -/
def passed_count (rs : List ExecutionResult) : Nat :=
  (rs.filter (fun r => r.success)).length

/-- `failed = len(results) - passed` (the summary computation inside
`run_tests_in_parallel`). -/
def failed_count (rs : List ExecutionResult) : Nat :=
  rs.length - passed_count rs

/-- `failed_count = sum(1 for r in results if not r['success'])`
(the exit-code computation inside `main`). -/
def main_failed_count (rs : List ExecutionResult) : Nat :=
  (rs.filter (fun r => !r.success)).length

/-- The hardcoded example list in `main`. -/
def main_feature_files : List String :=
  ["features/test.feature", "features/advanced-example.feature"]

/-- `main`: filter the hardcoded files through `os.path.exists`
(modelled by the oracle `file_exists`), exit 1 if nothing remains,
otherwise dispatch and exit with the number of failed results. -/
def main_exit_code (file_exists : String → Bool)
    (env : Nat → List String → SubprocessOutcome) (order : List Nat) : Nat :=
  let existing_files := main_feature_files.filter file_exists
  if existing_files.isEmpty then 1
  else main_failed_count
    (run_tests_in_parallel existing_files "behave" (some "@smoke") "pretty" false env order)

/-! ### Helper lemmas -/

theorem strOptTruthy_getD_ne (tags : Option String) (h : strOptTruthy tags = true) :
    tags.getD "" ≠ "" := by
  cases tags with
  | none => simp [strOptTruthy] at h
  | some t => simpa [strOptTruthy] using h

/-- The command list decomposes into the base invocation followed by the
three optional argument groups. -/
theorem build_cmd_shape (bc f : String) (tags : Option String) (fmt : String) (dr : Bool) :
    build_cmd bc f tags fmt dr = [bc, f]
      ++ (if strOptTruthy tags then ["--tags", tags.getD ""] else [])
      ++ (if fmt != "" && fmt != "pretty" then ["--format", fmt] else [])
      ++ (if dr then ["--dry-run"] else []) := by
  simp only [build_cmd]
  split_ifs <;> simp

theorem filterMap_getElem_range {α : Type} (l : List α) :
    (List.range l.length).filterMap (fun i => l[i]?) = l := by
  induction l with
  | nil => simp
  | cons a l ih =>
      rw [List.length_cons, List.range_succ_eq_map, List.filterMap_cons]
      simp only [List.filterMap_map, List.getElem?_cons_zero]
      have hc : ((fun i => (a :: l)[i]?) ∘ Nat.succ) = fun i => l[i]? := by
        funext i
        simp
      rw [hc, ih]

theorem filter_length_add_filter_not {α : Type} (p : α → Bool) (l : List α) :
    (l.filter p).length + (l.filter (fun a => !p a)).length = l.length := by
  induction l with
  | nil => simp
  | cons a l ih =>
      by_cases h : p a <;>
        simp [List.filter_cons, h, Nat.add_assoc, Nat.add_comm, Nat.add_left_comm, ← ih]

theorem length_submitted_results (files : List String) (bc : String) (tags : Option String)
    (fmt : String) (dr : Bool) (env : Nat → List String → SubprocessOutcome) :
    (submitted_results files bc tags fmt dr env).length = files.length := by
  simp [submitted_results]

/-- Whenever the completion order is a permutation of the submitted
indices, the collected result list is a permutation of the submitted
results. -/
theorem run_perm_submitted (files : List String) (bc : String) (tags : Option String)
    (fmt : String) (dr : Bool) (env : Nat → List String → SubprocessOutcome)
    (order : List Nat) (h : order.Perm (List.range files.length)) :
    (run_tests_in_parallel files bc tags fmt dr env order).Perm
      (submitted_results files bc tags fmt dr env) := by
  have hlen := length_submitted_results files bc tags fmt dr env
  have h1 := h.filterMap (fun i => (submitted_results files bc tags fmt dr env)[i]?)
  rw [← hlen] at h1
  rw [filterMap_getElem_range] at h1
  exact h1

/-! ### Claims -/

/-- C1: for every list of work items given to `run_tests_in_parallel`
(with the completion order a permutation of the submitted indices, as
`as_completed` over the future dictionary guarantees), the returned
result list is a permutation of the per-item results — exactly one
`ExecutionResult` per submitted item, none dropped, none duplicated —
and its length equals the number of work items. -/
theorem C1_one_result_per_item (files : List String) (bc : String) (tags : Option String)
    (fmt : String) (dr : Bool) (env : Nat → List String → SubprocessOutcome)
    (order : List Nat) (h : order.Perm (List.range files.length)) :
    (run_tests_in_parallel files bc tags fmt dr env order).Perm
      (submitted_results files bc tags fmt dr env) ∧
    (run_tests_in_parallel files bc tags fmt dr env order).length = files.length := by
  have hp := run_perm_submitted files bc tags fmt dr env order h
  exact ⟨hp, by rw [hp.length_eq, length_submitted_results]⟩

/-- C1 witness: two items, completion order reversed. -/
theorem C1_one_result_per_item_witness :
    (run_tests_in_parallel ["features/test.feature", "features/advanced-example.feature"]
        "behave" none "pretty" false
        (fun _ _ => SubprocessOutcome.completed ⟨0, "", ""⟩) [1, 0]).Perm
      (submitted_results ["features/test.feature", "features/advanced-example.feature"]
        "behave" none "pretty" false
        (fun _ _ => SubprocessOutcome.completed ⟨0, "", ""⟩)) ∧
    (run_tests_in_parallel ["features/test.feature", "features/advanced-example.feature"]
        "behave" none "pretty" false
        (fun _ _ => SubprocessOutcome.completed ⟨0, "", ""⟩) [1, 0]).length = 2 :=
  C1_one_result_per_item ["features/test.feature", "features/advanced-example.feature"]
    "behave" none "pretty" false (fun _ _ => SubprocessOutcome.completed ⟨0, "", ""⟩)
    [1, 0] (by decide)

/-- C2: for every batch (completion order a permutation of the submitted
indices), `passed + failed` equals the number of work items, the exit
code computed by `main` (count of unsuccessful results, which is what
the process exits with) equals `failed`, and `failed = 0` exactly when
that exit status is the success status `0`. -/
theorem C2_summary_counts (files : List String) (bc : String) (tags : Option String)
    (fmt : String) (dr : Bool) (env : Nat → List String → SubprocessOutcome)
    (order : List Nat) (rs : List ExecutionResult)
    (hord : order.Perm (List.range files.length))
    (hrs : rs = run_tests_in_parallel files bc tags fmt dr env order) :
    passed_count rs + failed_count rs = files.length ∧
    main_failed_count rs = failed_count rs ∧
    (failed_count rs = 0 ↔ main_failed_count rs = 0) := by
  have hp := run_perm_submitted files bc tags fmt dr env order hord
  have hlen : rs.length = files.length := by
    rw [hrs, hp.length_eq, length_submitted_results]
  have hsum : passed_count rs + main_failed_count rs = rs.length := by
    have hfl := filter_length_add_filter_not (fun r => r.success) rs
    simpa [passed_count, main_failed_count] using hfl
  have hfc : failed_count rs = rs.length - passed_count rs := rfl
  exact ⟨by omega, by omega, by omega⟩

/-- C2 witness: two items, one passing and one failing, reversed
completion order. -/
theorem C2_summary_counts_witness :
    passed_count (run_tests_in_parallel
        ["features/test.feature", "features/advanced-example.feature"] "behave" none
        "pretty" false
        (fun i _ => if i == 0 then SubprocessOutcome.completed ⟨0, "", ""⟩
          else SubprocessOutcome.completed ⟨1, "", "boom"⟩) [1, 0]) +
      failed_count (run_tests_in_parallel
        ["features/test.feature", "features/advanced-example.feature"] "behave" none
        "pretty" false
        (fun i _ => if i == 0 then SubprocessOutcome.completed ⟨0, "", ""⟩
          else SubprocessOutcome.completed ⟨1, "", "boom"⟩) [1, 0]) = 2 ∧
    main_failed_count (run_tests_in_parallel
        ["features/test.feature", "features/advanced-example.feature"] "behave" none
        "pretty" false
        (fun i _ => if i == 0 then SubprocessOutcome.completed ⟨0, "", ""⟩
          else SubprocessOutcome.completed ⟨1, "", "boom"⟩) [1, 0]) =
      failed_count (run_tests_in_parallel
        ["features/test.feature", "features/advanced-example.feature"] "behave" none
        "pretty" false
        (fun i _ => if i == 0 then SubprocessOutcome.completed ⟨0, "", ""⟩
          else SubprocessOutcome.completed ⟨1, "", "boom"⟩) [1, 0]) ∧
    (failed_count (run_tests_in_parallel
        ["features/test.feature", "features/advanced-example.feature"] "behave" none
        "pretty" false
        (fun i _ => if i == 0 then SubprocessOutcome.completed ⟨0, "", ""⟩
          else SubprocessOutcome.completed ⟨1, "", "boom"⟩) [1, 0]) = 0 ↔
      main_failed_count (run_tests_in_parallel
        ["features/test.feature", "features/advanced-example.feature"] "behave" none
        "pretty" false
        (fun i _ => if i == 0 then SubprocessOutcome.completed ⟨0, "", ""⟩
          else SubprocessOutcome.completed ⟨1, "", "boom"⟩) [1, 0]) = 0) :=
  C2_summary_counts ["features/test.feature", "features/advanced-example.feature"]
    "behave" none "pretty" false
    (fun i _ => if i == 0 then SubprocessOutcome.completed ⟨0, "", ""⟩
      else SubprocessOutcome.completed ⟨1, "", "boom"⟩)
    [1, 0] _ (by decide) rfl

/-- C3: when the child process times out, `run_behave_file` returns a
result with `success = false`, the failure sentinel exit code 1, the
fixed timeout message in `error`, empty `output` and `duration = 300`. -/
theorem C3_timeout_result (f bc : String) (tags : Option String) (fmt : String) (dr : Bool)
    (env : List String → SubprocessOutcome)
    (h : env (build_cmd bc f tags fmt dr) = SubprocessOutcome.timedOut) :
    run_behave_file f bc tags fmt dr env =
      { file := f, success := false, output := "",
        error := "Test execution timed out after 5 minutes",
        returncode := 1, duration := 300 } := by
  simp [run_behave_file, h]

/-- C3 witness: an environment in which every command times out. -/
theorem C3_timeout_result_witness :
    run_behave_file "features/test.feature" "behave" none "pretty" false
        (fun _ => SubprocessOutcome.timedOut) =
      { file := "features/test.feature", success := false, output := "",
        error := "Test execution timed out after 5 minutes",
        returncode := 1, duration := 300 } :=
  C3_timeout_result "features/test.feature" "behave" none "pretty" false
    (fun _ => SubprocessOutcome.timedOut) rfl

/-- C4: when launching or communicating with the child process raises
any exception, `run_behave_file` returns a result with
`success = false`, the failure sentinel exit code 1, the exception text
in `error` and `duration = 0`; moreover `run_behave_file` is total —
every environment yields some result record, nothing escapes the
executor boundary. -/
theorem C4_raised_result (f bc : String) (tags : Option String) (fmt : String) (dr : Bool)
    (env : List String → SubprocessOutcome) (msg : String)
    (h : env (build_cmd bc f tags fmt dr) = SubprocessOutcome.raised msg) :
    run_behave_file f bc tags fmt dr env =
      { file := f, success := false, output := "", error := msg,
        returncode := 1, duration := 0 } ∧
    ∀ env2 : List String → SubprocessOutcome, ∃ r : ExecutionResult,
      run_behave_file f bc tags fmt dr env2 = r :=
  ⟨by simp [run_behave_file, h], fun env2 => ⟨_, rfl⟩⟩

/-- C4 witness: an environment in which every launch raises. -/
theorem C4_raised_result_witness :
    run_behave_file "features/test.feature" "behave" none "pretty" false
        (fun _ => SubprocessOutcome.raised "No such file or directory") =
      { file := "features/test.feature", success := false, output := "",
        error := "No such file or directory", returncode := 1, duration := 0 } ∧
    ∀ env2 : List String → SubprocessOutcome, ∃ r : ExecutionResult,
      run_behave_file "features/test.feature" "behave" none "pretty" false env2 = r :=
  C4_raised_result "features/test.feature" "behave" none "pretty" false
    (fun _ => SubprocessOutcome.raised "No such file or directory")
    "No such file or directory" rfl

/-- C5: the invocation is the base command plus the file, followed by
the tag-filter group only when the tag option is truthy, the format
group only when the format is truthy and differs from the default
`pretty`, and the dry-run flag only when requested; and (for nonempty
command and file names) no element of the command is the empty string,
so omitted options never emit an empty or malformed flag. -/
theorem C5_invocation_shape (bc f : String) (tags : Option String) (fmt : String) (dr : Bool)
    (hbc : bc ≠ "") (hf : f ≠ "") :
    build_cmd bc f tags fmt dr = [bc, f]
      ++ (if strOptTruthy tags then ["--tags", tags.getD ""] else [])
      ++ (if fmt != "" && fmt != "pretty" then ["--format", fmt] else [])
      ++ (if dr then ["--dry-run"] else []) ∧
    ∀ s ∈ build_cmd bc f tags fmt dr, s ≠ "" := by
  refine ⟨build_cmd_shape bc f tags fmt dr, ?_⟩
  intro s hs
  rw [build_cmd_shape bc f tags fmt dr] at hs
  simp only [List.mem_append] at hs
  rcases hs with ((hs | hs) | hs) | hs
  · simp only [List.mem_cons, List.not_mem_nil, or_false] at hs
    rcases hs with rfl | rfl
    · exact hbc
    · exact hf
  · split at hs
    · rename_i h1
      simp only [List.mem_cons, List.not_mem_nil, or_false] at hs
      rcases hs with rfl | rfl
      · decide
      · exact strOptTruthy_getD_ne tags h1
    · simp at hs
  · split at hs
    · rename_i h2
      simp only [List.mem_cons, List.not_mem_nil, or_false] at hs
      rcases hs with rfl | rfl
      · decide
      · intro hEq
        subst hEq
        simp at h2
    · simp at hs
  · split at hs
    · simp only [List.mem_cons, List.not_mem_nil, or_false] at hs
      rcases hs with rfl
      decide
    · simp at hs

/-- C5 witness: all three options supplied. -/
theorem C5_invocation_shape_witness :
    build_cmd "behave" "features/test.feature" (some "@smoke") "json" true =
        ["behave", "features/test.feature"]
      ++ (if strOptTruthy (some "@smoke") then ["--tags", (some "@smoke").getD ""] else [])
      ++ (if "json" != "" && "json" != "pretty" then ["--format", "json"] else [])
      ++ (if true then ["--dry-run"] else []) ∧
    ∀ s ∈ build_cmd "behave" "features/test.feature" (some "@smoke") "json" true, s ≠ "" :=
  C5_invocation_shape "behave" "features/test.feature" (some "@smoke") "json" true
    (by decide) (by decide)

/-- C6: when the child process terminates normally, the result's
`success` field is true exactly when the subprocess exit status is 0. -/
theorem C6_success_iff_exit_zero (f bc : String) (tags : Option String) (fmt : String)
    (dr : Bool) (env : List String → SubprocessOutcome) (pr : ProcResult)
    (h : env (build_cmd bc f tags fmt dr) = SubprocessOutcome.completed pr) :
    ((run_behave_file f bc tags fmt dr env).success = true ↔ pr.returncode = 0) := by
  simp [run_behave_file, h]

/-- C6 witness: a normally terminating child with exit code 0. -/
theorem C6_success_iff_exit_zero_witness :
    ((run_behave_file "features/test.feature" "behave" none "pretty" false
        (fun _ => SubprocessOutcome.completed ⟨0, "1 feature passed", ""⟩)).success = true ↔
      (ProcResult.mk 0 "1 feature passed" "").returncode = 0) :=
  C6_success_iff_exit_zero "features/test.feature" "behave" none "pretty" false
    (fun _ => SubprocessOutcome.completed ⟨0, "1 feature passed", ""⟩)
    ⟨0, "1 feature passed", ""⟩ rfl

/-- C7 counterexample: the claim asserts that the empty-input exit
status is distinct from the exit status of an all-failed batch, but a
batch of one failing item also exits with status 1, the empty-input
status. -/
theorem C7_distinct_status_counterexample :
    main_exit_code (fun _ => false) (fun _ _ => SubprocessOutcome.raised "boom") [] = 1 ∧
    main_exit_code (fun s => s == "features/test.feature")
      (fun _ _ => SubprocessOutcome.raised "boom") [0] = 1 := by
  constructor
  · rfl
  · rfl

/-- C7 (amended): given zero work items, `main` exits with the nonzero
status 1 without consulting the subprocess environment (the exit code is
the same for every environment and completion order); that status is
distinct from the exit status of an all-failed batch whenever the batch
does not consist of exactly one item. -/
theorem C7_empty_input (fe : String → Bool) (h : ∀ f, fe f = false)
    (env₁ env₂ : Nat → List String → SubprocessOutcome) (order₁ order₂ : List Nat)
    (rs : List ExecutionResult) (hall : ∀ r ∈ rs, r.success = false)
    (hlen : rs.length ≠ 1) :
    main_exit_code fe env₁ order₁ = 1 ∧
    main_exit_code fe env₁ order₁ = main_exit_code fe env₂ order₂ ∧
    main_failed_count rs ≠ main_exit_code fe env₁ order₁ := by
  have hempty : main_feature_files.filter fe = [] := by
    simp [main_feature_files, h]
  have h1 : main_exit_code fe env₁ order₁ = 1 := by
    simp [main_exit_code, hempty]
  have h2 : main_exit_code fe env₂ order₂ = 1 := by
    simp [main_exit_code, hempty]
  have hfs : rs.filter (fun r => !r.success) = rs :=
    List.filter_eq_self.mpr (fun r hr => by simp [hall r hr])
  have hfc : main_failed_count rs = rs.length := by
    simp [main_failed_count, hfs]
  refine ⟨h1, by rw [h1, h2], ?_⟩
  rw [hfc, h1]
  exact hlen

/-- C7 witness: no file exists, and a two-item all-failed batch. -/
theorem C7_empty_input_witness :
    main_exit_code (fun _ => false) (fun _ _ => SubprocessOutcome.timedOut) [] = 1 ∧
    main_exit_code (fun _ => false) (fun _ _ => SubprocessOutcome.timedOut) [] =
      main_exit_code (fun _ => false) (fun _ _ => SubprocessOutcome.timedOut) [0] ∧
    main_failed_count
        [⟨"a.feature", false, "", "boom", 1, 0⟩, ⟨"b.feature", false, "", "crash", 1, 0⟩] ≠
      main_exit_code (fun _ => false) (fun _ _ => SubprocessOutcome.timedOut) [] :=
  C7_empty_input (fun _ => false) (fun _ => rfl)
    (fun _ _ => SubprocessOutcome.timedOut) (fun _ _ => SubprocessOutcome.timedOut) [] [0]
    [⟨"a.feature", false, "", "boom", 1, 0⟩, ⟨"b.feature", false, "", "crash", 1, 0⟩]
    (by decide) (by decide)

/-- C9: on a timeout and on a launch failure, the result's captured
stdout field `output` is exactly the empty string. -/
theorem C9_output_discarded (f bc : String) (tags : Option String) (fmt : String) (dr : Bool)
    (env₁ env₂ : List String → SubprocessOutcome) (msg : String)
    (h₁ : env₁ (build_cmd bc f tags fmt dr) = SubprocessOutcome.timedOut)
    (h₂ : env₂ (build_cmd bc f tags fmt dr) = SubprocessOutcome.raised msg) :
    (run_behave_file f bc tags fmt dr env₁).output = "" ∧
    (run_behave_file f bc tags fmt dr env₂).output = "" := by
  constructor <;> simp [run_behave_file, h₁, h₂]

/-- C9 witness: one timing-out and one raising environment. -/
theorem C9_output_discarded_witness :
    (run_behave_file "features/test.feature" "behave" none "pretty" false
      (fun _ => SubprocessOutcome.timedOut)).output = "" ∧
    (run_behave_file "features/test.feature" "behave" none "pretty" false
      (fun _ => SubprocessOutcome.raised "boom")).output = "" :=
  C9_output_discarded "features/test.feature" "behave" none "pretty" false
    (fun _ => SubprocessOutcome.timedOut) (fun _ => SubprocessOutcome.raised "boom")
    "boom" rfl rfl

/-- C10: an empty-string tag filter builds the same command as no tag
filter, and an empty-string output format builds the same command as
the default format `pretty` — flag inclusion follows Python truthiness
of the option value. -/
theorem C10_falsy_options_default (bc f : String) (tags : Option String) (fmt : String)
    (dr : Bool) :
    build_cmd bc f (some "") fmt dr = build_cmd bc f none fmt dr ∧
    build_cmd bc f tags "" dr = build_cmd bc f tags "pretty" dr := by
  constructor <;> simp [build_cmd, strOptTruthy]

end ParallelRunner
